import Mathlib

/-!
Shallow embedding of the GeneAlcPredict risk-scoring engine.

Sources embedded (translated from the repository's Python files):
* `models/data_processor.py`   — `DataProcessor.process_single_patient`
* `models/disease_predictor.py` — `DiseasePredictor` (weights, sigmoid, predict,
  confidence, alcohol sweep)
* `models/deep_learning_model.py` — `DNAAlcoholDeepModel` fallback path (Path B)
* `utils/helpers.py`           — `validate_input_data`
* `utils/visualizations.py`    — the feature grid of `create_alcohol_surface_plot`

Modelling conventions: Python floats are modelled as `ℚ` wherever the code only
performs field arithmetic, and as `ℝ` where the logistic sigmoid (`math.exp`)
enters; `round(x, n)` is modelled as round-half-up (`pyRound`), which agrees with
Python's float rounding except on exact ties, a difference absorbed by the
spec's stated tolerances; loosely typed dictionary values are modelled by
`PyVal` (numbers and strings).
-/

namespace GeneAlcPredict

/-- A loosely typed Python value as it may occur in a raw patient-input dict:
either a number or a string. Python's `str()` of a number renders digit strings
(never a categorical keyword); we render via `ℚ`'s `toString`, which has the
same property. -/
inductive PyVal where
  | num (q : ℚ)
  | str (s : String)
  deriving DecidableEq, Repr

/-- Digits of a decimal literal folded into a natural number. -/
def digitsToNat (l : List Char) : ℕ :=
  l.foldl (fun a c => a * 10 + (c.toNat - 48)) 0

/-- Model of Python `float(s)` on a string: optional sign, then a plain decimal
literal (digits, optionally a point and fraction digits). Exotic forms
(exponents, `inf`, `nan`, underscores, surrounding whitespace) are not modelled;
no claim depends on them. Returns `none` when conversion fails. -/
def parseDecimal (s : String) : Option ℚ :=
  let core : List Char → Option ℚ := fun cs =>
    let intPart := cs.takeWhile Char.isDigit
    let rest := cs.dropWhile Char.isDigit
    match rest with
    | [] => if intPart.isEmpty then none else some (digitsToNat intPart)
    | '.' :: fr =>
        if fr.all Char.isDigit && !(intPart.isEmpty && fr.isEmpty) then
          some ((digitsToNat intPart : ℚ) + (digitsToNat fr : ℚ) / (10 : ℚ) ^ fr.length)
        else none
    | _ => none
  match s.data with
  | '-' :: r => (core r).map (fun q => -q)
  | '+' :: r => core r
  | r => core r

/-- Model of Python `float(v)`: identity on numbers, decimal parse on strings;
`none` models the `except` branch of `clip` in `data_processor.py`. -/
def pyFloat (v : PyVal) : Option ℚ :=
  match v with
  | .num q => some q
  | .str s => parseDecimal s

/-- Model of Python `str(v)`. For strings it is the identity; for numbers it
renders the rational (a digit/slash/minus string), which — like Python's
rendering of a number — is never one of the categorical keywords. -/
def pyStr (v : PyVal) : String :=
  match v with
  | .num q => toString q
  | .str s => s

/-- Model of Python `str.lower()` (ASCII case folding), written structurally
over the character list so that it evaluates by reduction. Extensionally it is
`String.toLower` on the strings that occur here. -/
def pyLower (s : String) : String := ⟨s.data.map Char.toLower⟩

/-- RawPatientInput: the loosely typed input mapping. Each field is `none` when
the key is absent from the dict. Only the nine keys read by
`process_single_patient` / `validate_input_data` are represented; extra keys
(such as the output key `sex_male`) are never read by either function. -/
structure RawInput where
  age : Option PyVal
  alcohol_percentage : Option PyVal
  bmi : Option PyVal
  systolic_bp : Option PyVal
  cholesterol : Option PyVal
  glucose : Option PyVal
  smoker : Option PyVal
  sex : Option PyVal
  exercise_level : Option PyVal
  deriving DecidableEq, Repr

/-- CanonicalFeatures: the output dict of `process_single_patient` — six numeric
fields (Python floats) and three integer-encoded categorical fields. -/
structure CanonicalFeatures where
  age : ℚ
  alcohol_percentage : ℚ
  bmi : ℚ
  systolic_bp : ℚ
  cholesterol : ℚ
  glucose : ℚ
  smoker : ℕ
  sex_male : ℕ
  exercise_level : ℕ
  deriving DecidableEq, Repr

/-- The inner `clip` of `process_single_patient`: `float(v)` with fallback to
`lo` on conversion failure, then clamped into `[lo, hi]` as
`max(lo, min(hi, x))`. -/
def clip (v : PyVal) (lo hi : ℚ) : ℚ :=
  max lo (min hi ((pyFloat v).getD lo))

/-- The `exercise_map` dict of `DataProcessor`. -/
def exercise_map : List (String × ℕ) := [("low", 0), ("medium", 1), ("high", 2)]

/-- The `smoker_map` dict of `DataProcessor`. -/
def smoker_map : List (String × ℕ) := [("no", 0), ("yes", 1)]

/-- The `sex_map` dict of `DataProcessor`. -/
def sex_map : List (String × ℕ) := [("female", 0), ("male", 1)]

/-- `DataProcessor.process_single_patient` from `data_processor.py`: clips the
six numeric fields (with dict-get defaults) and encodes the three categorical
fields case-insensitively through the fixed maps, with defaults on miss. -/
def process_single_patient (d : RawInput) : CanonicalFeatures :=
  { age := clip (d.age.getD (.num 40)) 18 100
    alcohol_percentage := clip (d.alcohol_percentage.getD (.num 0)) 0 100
    bmi := clip (d.bmi.getD (.num 25)) 10 60
    systolic_bp := clip (d.systolic_bp.getD (.num 120)) 80 220
    cholesterol := clip (d.cholesterol.getD (.num 200)) 100 400
    glucose := clip (d.glucose.getD (.num 95)) 60 300
    smoker := (smoker_map.lookup (pyLower (pyStr (d.smoker.getD (.str "no"))))).getD 0
    sex_male := (sex_map.lookup (pyLower (pyStr (d.sex.getD (.str "male"))))).getD 1
    exercise_level :=
      (exercise_map.lookup (pyLower (pyStr (d.exercise_level.getD (.str "medium"))))).getD 1 }

/-- The output dict of `process_single_patient` viewed again as a raw input
dict, as happens when the processed dict is fed back into the processor. The
numeric values are numbers; `smoker` and `exercise_level` hold the Python ints
produced by the maps; the key `sex` is absent (the output key is `sex_male`,
which the processor never reads). -/
def canonToRaw (c : CanonicalFeatures) : RawInput :=
  { age := some (.num c.age)
    alcohol_percentage := some (.num c.alcohol_percentage)
    bmi := some (.num c.bmi)
    systolic_bp := some (.num c.systolic_bp)
    cholesterol := some (.num c.cholesterol)
    glucose := some (.num c.glucose)
    smoker := some (.num (c.smoker : ℚ))
    sex := none
    exercise_level := some (.num (c.exercise_level : ℚ)) }

/-- The feature dict consumed by `DiseasePredictor`: each of the nine named
keys may be absent (`predict_diseases` and `get_confidence_scores` read them
with `dict.get`). -/
structure FeatureMap where
  age : Option ℚ
  alcohol_percentage : Option ℚ
  bmi : Option ℚ
  systolic_bp : Option ℚ
  cholesterol : Option ℚ
  glucose : Option ℚ
  smoker : Option ℚ
  sex_male : Option ℚ
  exercise_level : Option ℚ
  deriving DecidableEq, Repr

/-- A `CanonicalFeatures` record viewed as the feature dict fed to the
predictor (all nine keys present). -/
def toFeatureMap (c : CanonicalFeatures) : FeatureMap :=
  { age := some c.age
    alcohol_percentage := some c.alcohol_percentage
    bmi := some c.bmi
    systolic_bp := some c.systolic_bp
    cholesterol := some c.cholesterol
    glucose := some c.glucose
    smoker := some (c.smoker : ℚ)
    sex_male := some (c.sex_male : ℚ)
    exercise_level := some (c.exercise_level : ℚ) }

/-- Model of `float(features.get(k, 0.0))` for the keys used by the linear
scores; unknown keys read as absent. -/
def featureGet (f : FeatureMap) (k : String) : ℚ :=
  (match k with
   | "age" => f.age
   | "alcohol_percentage" => f.alcohol_percentage
   | "bmi" => f.bmi
   | "systolic_bp" => f.systolic_bp
   | "cholesterol" => f.cholesterol
   | "glucose" => f.glucose
   | "smoker" => f.smoker
   | "sex_male" => f.sex_male
   | "exercise_level" => f.exercise_level
   | _ => none).getD 0

/-- `DiseasePredictor.heart_weights` (insertion order of the Python dict). -/
def heart_weights : List (String × ℚ) :=
  [("intercept", -5.0), ("age", 0.03), ("alcohol_percentage", 0.02), ("bmi", 0.02),
   ("systolic_bp", 0.015), ("cholesterol", 0.01), ("smoker", 0.8), ("sex_male", 0.3),
   ("exercise_level", -0.25)]

/-- `DiseasePredictor.stroke_weights` (insertion order of the Python dict). -/
def stroke_weights : List (String × ℚ) :=
  [("intercept", -6.0), ("age", 0.04), ("alcohol_percentage", 0.015), ("bmi", 0.015),
   ("systolic_bp", 0.02), ("cholesterol", 0.008), ("smoker", 0.6), ("sex_male", 0.1),
   ("exercise_level", -0.2)]

/-- `DiseasePredictor._linear_score`: start from the intercept, then add
`w * features.get(k, 0.0)` for every non-intercept weight key. -/
def linear_score (f : FeatureMap) (w : List (String × ℚ)) : ℚ :=
  w.foldl (fun s kw => if kw.1 = "intercept" then s else s + kw.2 * featureGet f kw.1)
    ((w.lookup "intercept").getD 0)

/-- `DiseasePredictor._sigmoid`: the logistic function `1 / (1 + exp (-x))`. -/
noncomputable def sigmoid (x : ℝ) : ℝ := 1 / (1 + Real.exp (-x))

/-- Model of Python `round(x, n)` as round-half-up on exact arithmetic:
`round (x·10^n) / 10^n`. Python rounds binary floats half-to-even; the two
agree except on exact ties, a difference the spec's tolerances absorb. -/
def pyRound {α : Type} [LinearOrderedField α] [FloorRing α] (x : α) (n : ℕ) : α :=
  ((round (x * 10 ^ n) : ℤ) : α) / 10 ^ n

/-- The result dict of `DiseasePredictor.predict_diseases`. -/
structure ClinicalRiskResult where
  heart_disease_risk : ℝ
  heart_raw_risk : ℝ
  stroke_risk : ℝ
  alcohol_impact_score : ℝ

/-- `DiseasePredictor.predict_diseases` from `disease_predictor.py`: linear
scores through the sigmoid, light calibration on the heart percentage
(`clamp(0.9·p + 2, 0, 100)`), and the alcohol impact score
`0.4·alcohol + 0.1·(heart% + stroke%)/2`, each rounded as in the source. -/
noncomputable def predict_diseases (f : FeatureMap) : ClinicalRiskResult :=
  let heart_score := linear_score f heart_weights
  let heart_prob := sigmoid (heart_score : ℝ)
  let heart_percent := heart_prob * 100
  let heart_calibrated := max 0 (min 100 (0.9 * heart_percent + 2.0))
  let stroke_score := linear_score f stroke_weights
  let stroke_prob := sigmoid (stroke_score : ℝ)
  let stroke_percent := stroke_prob * 100
  let alcohol_pct := ((f.alcohol_percentage.getD 0 : ℚ) : ℝ)
  let alcohol_impact := 0.4 * alcohol_pct + 0.1 * (heart_percent + stroke_percent) / 2
  { heart_disease_risk := pyRound heart_calibrated 2
    heart_raw_risk := pyRound heart_prob 4
    stroke_risk := pyRound stroke_percent 2
    alcohol_impact_score := pyRound alcohol_impact 2 }

/-- The result dict of `DiseasePredictor.get_confidence_scores`. -/
structure ConfidenceResult where
  heart_confidence : ℚ
  stroke_confidence : ℚ
  deriving DecidableEq, Repr

/-- The nine feature keys whose presence the confidence loop counts. -/
def confidence_keys : List String :=
  ["age", "alcohol_percentage", "bmi", "systolic_bp", "cholesterol", "glucose",
   "smoker", "sex_male", "exercise_level"]

/-- Whether key `k` is present in the feature dict (`k in features`). -/
def hasKey (f : FeatureMap) (k : String) : Bool :=
  match k with
  | "age" => f.age.isSome
  | "alcohol_percentage" => f.alcohol_percentage.isSome
  | "bmi" => f.bmi.isSome
  | "systolic_bp" => f.systolic_bp.isSome
  | "cholesterol" => f.cholesterol.isSome
  | "glucose" => f.glucose.isSome
  | "smoker" => f.smoker.isSome
  | "sex_male" => f.sex_male.isSome
  | "exercise_level" => f.exercise_level.isSome
  | _ => false

/-- `DiseasePredictor.get_confidence_scores`: completeness from the key-count
loop, signal from the typical-range test, blended `0.6/0.4` and rounded to
three decimals. -/
def get_confidence_scores (f : FeatureMap) : ConfidenceResult :=
  let completeness : ℕ := confidence_keys.foldl (fun c k => if hasKey f k then c + 1 else c) 0
  let completeness_conf : ℚ := (completeness : ℚ) / 9
  let age := f.age.getD 40
  let alcohol := f.alcohol_percentage.getD 10
  let systolic := f.systolic_bp.getD 120
  let typical := (18 ≤ age ∧ age ≤ 85) ∧ (0 ≤ alcohol ∧ alcohol ≤ 40) ∧
    (90 ≤ systolic ∧ systolic ≤ 160)
  let signal_conf : ℚ := if typical then 0.7 else 0.5
  let overall := 0.6 * completeness_conf + 0.4 * signal_conf
  { heart_confidence := pyRound overall 3
    stroke_confidence := pyRound (overall * 0.95) 3 }

/-- The feature dict built for each alcohol step inside
`DiseasePredictor.analyze_alcohol_thresholds` (note `exercise_level = 2`). -/
def thresholdFeatures (age apct : ℚ) : FeatureMap :=
  { age := some age, alcohol_percentage := some apct, bmi := some 25,
    systolic_bp := some 120, cholesterol := some 200, glucose := some 95,
    smoker := some 0, sex_male := some 1, exercise_level := some 2 }

/-- `DiseasePredictor.analyze_alcohol_thresholds`: heart risk percent for
alcohol `0, 5, …, 100` at the given age, as (alcohol, risk) pairs. -/
noncomputable def analyze_alcohol_thresholds (age : ℚ) : List (ℕ × ℝ) :=
  (List.range 21).map fun i =>
    (5 * i, (predict_diseases (thresholdFeatures age (5 * i))).heart_disease_risk)

/-- The feature dict built for each grid cell inside
`create_alcohol_surface_plot` in `visualizations.py` (note
`exercise_level = 1`). -/
def surfaceFeatures (a ap : ℚ) : FeatureMap :=
  { age := some a, alcohol_percentage := some ap, bmi := some 25,
    systolic_bp := some 120, cholesterol := some 200, glucose := some 95,
    smoker := some 0, sex_male := some 1, exercise_level := some 1 }

/-- The age axis of the risk surface: `np.arange(18, 81, 3)`. -/
def surfaceAges : List ℚ := (List.range 21).map fun i => 18 + 3 * i

/-- The alcohol axis of the risk surface: `np.arange(0, 101, 5)`. -/
def surfaceAlcohols : List ℚ := (List.range 21).map fun i => 5 * i

/-- One cell of the risk surface `Z` of `create_alcohol_surface_plot`. -/
noncomputable def surfaceZ (a ap : ℚ) : ℝ :=
  (predict_diseases (surfaceFeatures a ap)).heart_disease_risk

/-! Genetic-interaction model, Path B (TensorFlow unavailable), from
`deep_learning_model.py`. -/

/-- The fixed, ordered SNP vocabulary `dna_snp_list`. -/
def dna_snp_list : List String :=
  ["rs1229984", "rs671", "rs698", "rs1800497", "rs279858", "rs4680",
   "rs2066702", "rs1799971"]

/-- The `dna_data` dict: each of the eight SNP dosages may be absent. -/
structure DnaData where
  rs1229984 : Option ℚ
  rs671 : Option ℚ
  rs698 : Option ℚ
  rs1800497 : Option ℚ
  rs279858 : Option ℚ
  rs4680 : Option ℚ
  rs2066702 : Option ℚ
  rs1799971 : Option ℚ
  deriving DecidableEq, Repr

/-- `dna_data.get(snp, 0.5)`: dosage lookup with neutral default. -/
def dnaGet (d : DnaData) (snp : String) : ℚ :=
  (match snp with
   | "rs1229984" => d.rs1229984
   | "rs671" => d.rs671
   | "rs698" => d.rs698
   | "rs1800497" => d.rs1800497
   | "rs279858" => d.rs279858
   | "rs4680" => d.rs4680
   | "rs2066702" => d.rs2066702
   | "rs1799971" => d.rs1799971
   | _ => none).getD 0.5

/-- The 10-element input vector of `DNAAlcoholDeepModel.predict`: the eight
dosages in SNP-list order, then `age/100` and `alcohol/100`. -/
def inputFeatures (d : DnaData) (age alcohol : ℚ) : List ℚ :=
  dna_snp_list.map (dnaGet d) ++ [age / 100, alcohol / 100]

/-- The result dict of the genetic model. -/
structure GeneticRiskResult where
  alcoholism_risk : ℚ
  liver_damage_risk : ℚ
  neurological_impact : ℚ
  dna_heart_risk : ℚ
  dna_liver_risk : ℚ
  deriving DecidableEq, Repr

/-- `alcoholism_weights` of `_fallback_predict`. -/
def alcoholism_weights : List ℚ := [0.25, 0.20, 0.15, 0.10, 0.08, 0.07, 0.10, 0.05]

/-- `liver_weights` of `_fallback_predict`. -/
def liver_weights : List ℚ := [0.20, 0.25, 0.15, 0.05, 0.05, 0.10, 0.15, 0.05]

/-- `neuro_weights` of `_fallback_predict`. -/
def neuro_weights : List ℚ := [0.10, 0.15, 0.10, 0.20, 0.15, 0.15, 0.05, 0.10]

/-- `heart_weights` of `_fallback_predict` (the SNP weight vector, distinct
from the clinical `heart_weights` dict). -/
def dna_heart_weights : List ℚ := [0.15, 0.10, 0.15, 0.05, 0.10, 0.20, 0.15, 0.10]

/-- `liver_risk_weights` of `_fallback_predict`. -/
def liver_risk_weights : List ℚ := [0.20, 0.30, 0.15, 0.05, 0.05, 0.05, 0.15, 0.05]

/-- `sum(w * v for w, v in zip(weights, features[:8]))`. -/
def weightedBase (w : List ℚ) (features : List ℚ) : ℚ :=
  ((w.zip (features.take 8)).map fun p => p.1 * p.2).sum

/-- Python negative indexing `l[-k]` for a list known to be long enough;
out-of-range reads (which would raise in Python) read 0. -/
def negIdx (l : List ℚ) (k : ℕ) : ℚ := l.getD (l.length - k) 0

/-- `DNAAlcoholDeepModel._fallback_predict`: the five weighted SNP bases,
blended with the age and alcohol factors and clamped into `[0, 100]`. -/
def fallback_predict (features : List ℚ) : GeneticRiskResult :=
  let alcoholism_base := weightedBase alcoholism_weights features
  let liver_base := weightedBase liver_weights features
  let neuro_base := weightedBase neuro_weights features
  let heart_base := weightedBase dna_heart_weights features
  let liver_risk_base := weightedBase liver_risk_weights features
  let age_norm := negIdx features 2
  let age_factor := 0.5 + age_norm * 0.5
  let alc_norm := negIdx features 1
  let alc_factor := 0.2 + alc_norm * 0.8
  let alcoholism_risk := alcoholism_base * 40 * alc_factor * (0.7 + 0.3 * age_factor)
  let liver_risk := liver_base * 50 * alc_factor * age_factor
  let neuro_risk := neuro_base * 45 * alc_factor * (0.6 + 0.4 * age_factor)
  let heart_risk := heart_base * 45 * alc_factor * (0.5 + 0.5 * age_factor)
  let liver_disease_risk := liver_risk_base * 55 * alc_factor * (0.4 + 0.6 * age_factor)
  { alcoholism_risk := max 0 (min 100 alcoholism_risk)
    liver_damage_risk := max 0 (min 100 liver_risk)
    neurological_impact := max 0 (min 100 neuro_risk)
    dna_heart_risk := max 0 (min 100 heart_risk)
    dna_liver_risk := max 0 (min 100 liver_disease_risk) }

/-- `DNAAlcoholDeepModel.predict` in the fallback mode (Path B, TensorFlow
unavailable): build the input vector, then `_fallback_predict`. -/
def dna_predict (d : DnaData) (age alcohol : ℚ) : GeneticRiskResult :=
  fallback_predict (inputFeatures d age alcohol)

/-! Input validator from `utils/helpers.py`. -/

/-- `isinstance(v, (int, float)) and lo ≤ v ≤ hi` for a dict value. -/
def numInRange (v : PyVal) (lo hi : ℚ) : Bool :=
  match v with
  | .num q => decide (lo ≤ q) && decide (q ≤ hi)
  | .str _ => false

/-- An optional numeric field is present and fails its check. -/
def optNumBad (o : Option PyVal) (lo hi : ℚ) : Bool :=
  match o with
  | none => false
  | some v => !numInRange v lo hi

/-- An optional categorical field is present with a value not in the exact
list of valid strings (a number is never in a list of strings). -/
def optCatBad (o : Option PyVal) (vals : List String) : Bool :=
  match o with
  | none => false
  | some (.str s) => !vals.contains s
  | some (.num _) => true

/-- `validate_input_data` from `helpers.py`: required `age` and
`alcohol_percentage`, ranged optional numeric fields, exact-match optional
categorical fields; first failure wins. Reason strings reproduce the source
messages (list-repr quoting elided). -/
def validate_input_data (d : RawInput) : Bool × String :=
  if d.age.isNone then (false, "Age is required")
  else if d.alcohol_percentage.isNone then (false, "Alcohol percentage is required")
  else if !numInRange (d.age.getD (.num 0)) 18 100 then
    (false, "Age must be between 18 and 100")
  else if !numInRange (d.alcohol_percentage.getD (.num 0)) 0 100 then
    (false, "Alcohol percentage must be between 0 and 100")
  else if optNumBad d.bmi 10 60 then (false, "bmi must be between 10 and 60")
  else if optNumBad d.systolic_bp 80 200 then
    (false, "systolic_bp must be between 80 and 200")
  else if optNumBad d.cholesterol 100 400 then
    (false, "cholesterol must be between 100 and 400")
  else if optNumBad d.glucose 60 300 then (false, "glucose must be between 60 and 300")
  else if optCatBad d.smoker ["yes", "no"] then (false, "smoker must be one of [yes, no]")
  else if optCatBad d.sex ["male", "female"] then
    (false, "sex must be one of [male, female]")
  else if optCatBad d.exercise_level ["low", "medium", "high"] then
    (false, "exercise_level must be one of [low, medium, high]")
  else (true, "Valid input data")

/-- A present optional value within inclusive bounds (Boolean, so hypotheses
stay decidable). -/
def inRangeQ (o : Option ℚ) (lo hi : ℚ) : Bool :=
  match o with
  | some q => decide (lo ≤ q) && decide (q ≤ hi)
  | none => false

/-- A canonical feature dict: all nine keys present, each within its
documented data-model bound. -/
def canonicalOKF (f : FeatureMap) : Bool :=
  inRangeQ f.age 18 100 && inRangeQ f.alcohol_percentage 0 100 &&
  inRangeQ f.bmi 10 60 && inRangeQ f.systolic_bp 80 220 &&
  inRangeQ f.cholesterol 100 400 && inRangeQ f.glucose 60 300 &&
  inRangeQ f.smoker 0 1 && inRangeQ f.sex_male 0 1 && inRangeQ f.exercise_level 0 2

/-- A genetic profile with all eight SNP dosages present in `[0, 1]`. -/
def dnaOK (d : DnaData) : Bool :=
  inRangeQ d.rs1229984 0 1 && inRangeQ d.rs671 0 1 && inRangeQ d.rs698 0 1 &&
  inRangeQ d.rs1800497 0 1 && inRangeQ d.rs279858 0 1 && inRangeQ d.rs4680 0 1 &&
  inRangeQ d.rs2066702 0 1 && inRangeQ d.rs1799971 0 1

/-! Helper lemmas. -/

/-- Reading a field that `inRangeQ` certifies yields a value in the bounds. -/
theorem inRangeQ_getD {o : Option ℚ} {lo hi : ℚ} (h : inRangeQ o lo hi = true) (d : ℚ) :
    lo ≤ o.getD d ∧ o.getD d ≤ hi := by
  cases o with
  | none => simp [inRangeQ] at h
  | some q =>
      simp only [inRangeQ, Bool.and_eq_true, decide_eq_true_eq] at h
      simpa using h

/-- The clamp `max 0 (min 100 x)` of `_fallback_predict` lands in `[0, 100]`. -/
theorem clamp_mem_0_100 (x : ℚ) :
    0 ≤ max 0 (min 100 x) ∧ max 0 (min 100 x) ≤ 100 :=
  ⟨le_max_left _ _, max_le (by norm_num) (min_le_left _ _)⟩

/-- Clipping lands inside the clip interval. -/
theorem clip_mem (v : PyVal) {lo hi : ℚ} (h : lo ≤ hi) :
    lo ≤ clip v lo hi ∧ clip v lo hi ≤ hi :=
  ⟨le_max_left _ _, max_le h (min_le_left _ _)⟩

/-- Clipping an in-range number is the identity. -/
theorem clip_num_of_mem {q lo hi : ℚ} (h1 : lo ≤ q) (h2 : q ≤ hi) :
    clip (.num q) lo hi = q := by
  unfold clip pyFloat
  rw [Option.getD_some, min_eq_right h2, max_eq_right h1]

/-- The smoker encoding is 0 or 1 for any lookup key. -/
theorem smoker_code_cases (s : String) :
    (smoker_map.lookup s).getD 0 = 0 ∨ (smoker_map.lookup s).getD 0 = 1 := by
  by_cases h1 : s = "no"
  · subst h1; left; rfl
  · by_cases h2 : s = "yes"
    · subst h2; right; rfl
    · have e1 : (s == "no") = false := beq_eq_false_iff_ne.mpr h1
      have e2 : (s == "yes") = false := beq_eq_false_iff_ne.mpr h2
      left
      simp [smoker_map, List.lookup, e1, e2]

/-- The sex encoding is 0 or 1 for any lookup key. -/
theorem sex_code_cases (s : String) :
    (sex_map.lookup s).getD 1 = 0 ∨ (sex_map.lookup s).getD 1 = 1 := by
  by_cases h1 : s = "female"
  · subst h1; left; rfl
  · by_cases h2 : s = "male"
    · subst h2; right; rfl
    · have e1 : (s == "female") = false := beq_eq_false_iff_ne.mpr h1
      have e2 : (s == "male") = false := beq_eq_false_iff_ne.mpr h2
      right
      simp [sex_map, List.lookup, e1, e2]

/-- The exercise encoding is 0, 1 or 2 for any lookup key. -/
theorem exercise_code_cases (s : String) :
    (exercise_map.lookup s).getD 1 = 0 ∨ (exercise_map.lookup s).getD 1 = 1 ∨
      (exercise_map.lookup s).getD 1 = 2 := by
  by_cases h1 : s = "low"
  · subst h1; left; rfl
  · by_cases h2 : s = "medium"
    · subst h2; right; left; rfl
    · by_cases h3 : s = "high"
      · subst h3; right; right; rfl
      · have e1 : (s == "low") = false := beq_eq_false_iff_ne.mpr h1
        have e2 : (s == "medium") = false := beq_eq_false_iff_ne.mpr h2
        have e3 : (s == "high") = false := beq_eq_false_iff_ne.mpr h3
        right; left
        simp [exercise_map, List.lookup, e1, e2, e3]

/-- The half-up integer rounding is monotone. -/
theorem round_le_round_of_le {α : Type} [LinearOrderedField α] [FloorRing α] {x y : α}
    (h : x ≤ y) : round x ≤ round y := by
  rw [round_eq, round_eq]
  exact Int.floor_le_floor (by linarith)

/-- Round-half-up to `n` decimals is monotone. -/
theorem pyRound_mono {α : Type} [LinearOrderedField α] [FloorRing α] {x y : α} (n : ℕ)
    (h : x ≤ y) : pyRound x n ≤ pyRound y n := by
  unfold pyRound
  have hp : (0 : α) < 10 ^ n := by positivity
  apply div_le_div_of_nonneg_right ?_ hp.le
  exact_mod_cast round_le_round_of_le (mul_le_mul_of_nonneg_right h hp.le)

/-- Integer bracketing of `pyRound` from a bracketing of `x·10^n + 1/2`. -/
theorem pyRound_range {α : Type} [LinearOrderedField α] [FloorRing α] {x : α} {n : ℕ}
    {a b : ℤ} (h1 : (a : α) ≤ x * 10 ^ n + 1 / 2) (h2 : x * 10 ^ n + 1 / 2 < (b : α) + 1) :
    (a : α) / 10 ^ n ≤ pyRound x n ∧ pyRound x n ≤ (b : α) / 10 ^ n := by
  unfold pyRound
  rw [round_eq]
  have hp : (0 : α) < 10 ^ n := by positivity
  have hl : a ≤ ⌊x * 10 ^ n + 1 / 2⌋ := Int.le_floor.mpr h1
  have hu : ⌊x * 10 ^ n + 1 / 2⌋ < b + 1 := Int.floor_lt.mpr (by push_cast; linarith)
  have hu2 : ⌊x * 10 ^ n + 1 / 2⌋ ≤ b := by omega
  constructor
  · apply div_le_div_of_nonneg_right ?_ hp.le
    exact_mod_cast hl
  · apply div_le_div_of_nonneg_right ?_ hp.le
    exact_mod_cast hu2

/-- `pyRound` of a nonnegative value is nonnegative. -/
theorem pyRound_nonneg {α : Type} [LinearOrderedField α] [FloorRing α] {x : α} (n : ℕ)
    (h : 0 ≤ x) : 0 ≤ pyRound x n := by
  unfold pyRound
  apply div_nonneg ?_ (by positivity)
  rw [round_eq]
  have hp : (0 : α) < 10 ^ n := by positivity
  have h0 : (0 : ℤ) ≤ ⌊x * 10 ^ n + 1 / 2⌋ := by
    apply Int.le_floor.mpr
    push_cast
    nlinarith
  exact_mod_cast h0

/-- `pyRound` does not cross an integer upper bound. -/
theorem pyRound_le_int {α : Type} [LinearOrderedField α] [FloorRing α] {x : α} {z : ℤ}
    (n : ℕ) (h : x ≤ (z : α)) : pyRound x n ≤ (z : α) := by
  have hp : (0 : α) < 10 ^ n := by positivity
  have hfl : round (x * 10 ^ n) ≤ z * 10 ^ n := by
    rw [round_eq]
    have hlt : (x * 10 ^ n + 1 / 2 : α) < ((z * 10 ^ n + 1 : ℤ) : α) := by
      push_cast
      nlinarith [mul_le_mul_of_nonneg_right h hp.le]
    have := Int.floor_lt.mpr hlt
    omega
  calc pyRound x n = ((round (x * 10 ^ n) : ℤ) : α) / 10 ^ n := rfl
    _ ≤ ((z * 10 ^ n : ℤ) : α) / 10 ^ n := by
        apply div_le_div_of_nonneg_right ?_ hp.le
        exact_mod_cast hfl
    _ = (z : α) := by push_cast; field_simp

/-- The sigmoid is positive. -/
theorem sigmoid_pos (x : ℝ) : 0 < sigmoid x := by
  unfold sigmoid
  have := Real.exp_pos (-x)
  positivity

/-- The sigmoid is below one. -/
theorem sigmoid_lt_one (x : ℝ) : sigmoid x < 1 := by
  unfold sigmoid
  have h := Real.exp_pos (-x)
  rw [div_lt_one (by linarith)]
  linarith

/-- The sigmoid is monotone. -/
theorem sigmoid_le_sigmoid {x y : ℝ} (h : x ≤ y) : sigmoid x ≤ sigmoid y := by
  unfold sigmoid
  have hx := Real.exp_pos (-x)
  have hy := Real.exp_pos (-y)
  have hexp : Real.exp (-y) ≤ Real.exp (-x) := Real.exp_le_exp.mpr (by linarith)
  rw [div_le_div_iff₀ (by linarith) (by linarith)]
  linarith

/-- Two-sided bound on the sigmoid from a two-sided bound on `exp (-x)`. -/
theorem sigmoid_bounds {x el eu : ℝ} (h0 : 0 ≤ el) (h1 : el ≤ Real.exp (-x))
    (h2 : Real.exp (-x) ≤ eu) :
    1 / (1 + eu) ≤ sigmoid x ∧ sigmoid x ≤ 1 / (1 + el) := by
  unfold sigmoid
  have hx := Real.exp_pos (-x)
  constructor
  · exact one_div_le_one_div_of_le (by linarith) (by linarith)
  · exact one_div_le_one_div_of_le (by linarith) (by linarith)

/-- Loop-counting equals `countP`: the completeness loop of
`get_confidence_scores` counts the keys satisfying the predicate. -/
theorem foldl_count_eq_countP (p : String → Bool) (l : List String) (n : ℕ) :
    l.foldl (fun c k => if p k then c + 1 else c) n = n + l.countP p := by
  induction l generalizing n with
  | nil => simp
  | cons h t ih => by_cases hp : p h <;> simp [List.countP_cons, hp, ih] <;> omega

/-- C2: on the fallback path (Path B) with all eight SNP dosages 0.5, age 40
and alcohol 10, the five genetic outputs are within 0.05 of 5.10, 4.90, 5.54,
5.36 and 6.31 respectively. -/
theorem genetic_fallback_literal_scenario :
    |(dna_predict ⟨some 0.5, some 0.5, some 0.5, some 0.5, some 0.5, some 0.5,
        some 0.5, some 0.5⟩ 40 10).alcoholism_risk - 5.10| ≤ 0.05 ∧
    |(dna_predict ⟨some 0.5, some 0.5, some 0.5, some 0.5, some 0.5, some 0.5,
        some 0.5, some 0.5⟩ 40 10).liver_damage_risk - 4.90| ≤ 0.05 ∧
    |(dna_predict ⟨some 0.5, some 0.5, some 0.5, some 0.5, some 0.5, some 0.5,
        some 0.5, some 0.5⟩ 40 10).neurological_impact - 5.54| ≤ 0.05 ∧
    |(dna_predict ⟨some 0.5, some 0.5, some 0.5, some 0.5, some 0.5, some 0.5,
        some 0.5, some 0.5⟩ 40 10).dna_heart_risk - 5.36| ≤ 0.05 ∧
    |(dna_predict ⟨some 0.5, some 0.5, some 0.5, some 0.5, some 0.5, some 0.5,
        some 0.5, some 0.5⟩ 40 10).dna_liver_risk - 6.31| ≤ 0.05 := by
  have h : dna_predict ⟨some 0.5, some 0.5, some 0.5, some 0.5, some 0.5, some 0.5,
      some 0.5, some 0.5⟩ 40 10 = ⟨637/125, 49/10, 693/125, 1071/200, 3157/500⟩ := by
    norm_num [dna_predict, fallback_predict, inputFeatures, dnaGet, dna_snp_list,
      weightedBase, negIdx, alcoholism_weights, liver_weights, neuro_weights,
      dna_heart_weights, liver_risk_weights, List.getD, min_def, max_def]
  rw [h]
  refine ⟨?_, ?_, ?_, ?_, ?_⟩ <;> rw [abs_le] <;> constructor <;> norm_num

/-- C3 counterexample: processing is not idempotent — a record whose first
pass encodes `smoker = 1` comes back with `smoker = 0`, because the output
stores categorical values as integers (and the sex encoding under the key
`sex_male`, which the processor does not read). -/
theorem process_reprocess_changes_smoker :
    process_single_patient (canonToRaw (process_single_patient
      ⟨none, none, none, none, none, none, some (.str "yes"), none, none⟩)) ≠
    process_single_patient
      ⟨none, none, none, none, none, none, some (.str "yes"), none, none⟩ := by
  intro h
  have hs := congrArg CanonicalFeatures.smoker h
  have hr : (process_single_patient
      ⟨none, none, none, none, none, none, some (.str "yes"), none, none⟩).smoker = 1 := rfl
  have hl : (process_single_patient (canonToRaw (process_single_patient
      ⟨none, none, none, none, none, none, some (.str "yes"), none, none⟩))).smoker = 0 := rfl
  rw [hl, hr] at hs
  exact absurd hs (by decide)

/-- C3 amended: reprocessing a processed record is the identity on the six
numeric fields, but resets the categorical fields to their defaults
(`smoker = 0`, `sex_male = 1`, `exercise_level = 1`): the integer encodings do
not stringify to map keywords, and the sex encoding is stored under `sex_male`
while the processor reads `sex`. Idempotence therefore holds exactly when the
first pass already produced those three defaults. -/
theorem process_reprocess_resets_categoricals (d : RawInput) :
    process_single_patient (canonToRaw (process_single_patient d)) =
      { process_single_patient d with smoker := 0, sex_male := 1, exercise_level := 1 } := by
  simp only [process_single_patient, canonToRaw, Option.getD_some]
  rw [CanonicalFeatures.mk.injEq]
  refine ⟨?_, ?_, ?_, ?_, ?_, ?_, ?_, ?_, ?_⟩
  · exact clip_num_of_mem (clip_mem _ (by norm_num)).1 (clip_mem _ (by norm_num)).2
  · exact clip_num_of_mem (clip_mem _ (by norm_num)).1 (clip_mem _ (by norm_num)).2
  · exact clip_num_of_mem (clip_mem _ (by norm_num)).1 (clip_mem _ (by norm_num)).2
  · exact clip_num_of_mem (clip_mem _ (by norm_num)).1 (clip_mem _ (by norm_num)).2
  · exact clip_num_of_mem (clip_mem _ (by norm_num)).1 (clip_mem _ (by norm_num)).2
  · exact clip_num_of_mem (clip_mem _ (by norm_num)).1 (clip_mem _ (by norm_num)).2
  · rcases smoker_code_cases (pyLower (pyStr (d.smoker.getD (PyVal.str "no")))) with h | h <;>
      rw [h] <;> rfl
  · rfl
  · rcases exercise_code_cases
      (pyLower (pyStr (d.exercise_level.getD (PyVal.str "medium")))) with h | h | h <;>
      rw [h] <;> rfl

/-- C4 counterexample: the surface sampler does not build the sweep's feature
record — it sets `exercise_level = 1` where the sweep
(`analyze_alcohol_thresholds`) sets `exercise_level = 2`. -/
theorem surface_features_differ_from_sweep :
    surfaceFeatures 40 10 ≠ thresholdFeatures 40 10 ∧
    (surfaceFeatures 40 10).exercise_level = some 1 ∧
    (thresholdFeatures 40 10).exercise_level = some 2 := by
  refine ⟨fun h => ?_, rfl, rfl⟩
  have hs := congrArg FeatureMap.exercise_level h
  simp [surfaceFeatures, thresholdFeatures] at hs

/-- C4 amended: each cell of the risk surface equals the clinical model's
`heart_disease_risk` on the record with defaults `bmi = 25`,
`systolic_bp = 120`, `cholesterol = 200`, `glucose = 95`, `smoker = 0`,
`sex_male = 1` and `exercise_level = 1` (not the sweep's
`exercise_level = 2`). -/
theorem surface_cell_uses_exercise_one (a ap : ℚ) :
    surfaceZ a ap = (predict_diseases
      { age := some a, alcohol_percentage := some ap, bmi := some 25,
        systolic_bp := some 120, cholesterol := some 200, glucose := some 95,
        smoker := some 0, sex_male := some 1, exercise_level := some 1 }).heart_disease_risk :=
  rfl

/-- C8: the confidence computation satisfies the spec formula — completeness
is the fraction of the nine named keys present, signal is 0.7 on the typical
clinical range and 0.5 otherwise, overall is their 0.6/0.4 blend, and the two
confidences are `overall` and `overall · 0.95` rounded to three decimals. -/
theorem confidence_formula (f : FeatureMap) :
    (get_confidence_scores f).heart_confidence =
      pyRound (0.6 * ((confidence_keys.countP (fun k => hasKey f k) : ℚ) / 9) +
        0.4 * (if (18 ≤ f.age.getD 40 ∧ f.age.getD 40 ≤ 85) ∧
                  (0 ≤ f.alcohol_percentage.getD 10 ∧ f.alcohol_percentage.getD 10 ≤ 40) ∧
                  (90 ≤ f.systolic_bp.getD 120 ∧ f.systolic_bp.getD 120 ≤ 160)
               then (0.7 : ℚ) else 0.5)) 3 ∧
    (get_confidence_scores f).stroke_confidence =
      pyRound ((0.6 * ((confidence_keys.countP (fun k => hasKey f k) : ℚ) / 9) +
        0.4 * (if (18 ≤ f.age.getD 40 ∧ f.age.getD 40 ≤ 85) ∧
                  (0 ≤ f.alcohol_percentage.getD 10 ∧ f.alcohol_percentage.getD 10 ≤ 40) ∧
                  (90 ≤ f.systolic_bp.getD 120 ∧ f.systolic_bp.getD 120 ≤ 160)
               then (0.7 : ℚ) else 0.5)) * 0.95) 3 := by
  unfold get_confidence_scores
  rw [foldl_count_eq_countP]
  norm_num

/-- C9: the validator accepts a present `systolic_bp` only in `[80, 200]`
(outside it the result is `(false, reason)`, never an exception), while the
processor clips `systolic_bp` to `[80, 220]` — so an input such as
`systolic_bp = 210` is rejected by the validator yet mapped unchanged to an
in-bounds canonical value by the processor. -/
theorem validator_systolic_narrower_than_clip :
    (∀ (d : RawInput) (q : ℚ), d.systolic_bp = some (.num q) → (q < 80 ∨ 200 < q) →
        (validate_input_data d).1 = false) ∧
    (∀ (d : RawInput) (q : ℚ), d.systolic_bp = some (.num q) → 80 ≤ q → q ≤ 220 →
        (process_single_patient d).systolic_bp = q) ∧
    ((validate_input_data ⟨some (.num 40), some (.num 10), none, some (.num 210), none,
        none, none, none, none⟩).1 = false ∧
      (process_single_patient ⟨some (.num 40), some (.num 10), none, some (.num 210), none,
        none, none, none, none⟩).systolic_bp = 210 ∧
      (80 : ℚ) ≤ 210 ∧ (210 : ℚ) ≤ 220) := by
  refine ⟨?_, ?_, ?_, ?_, by norm_num, by norm_num⟩
  · intro d q h hq
    have hbad : optNumBad d.systolic_bp 80 200 = true := by
      rw [h]
      simp only [optNumBad, numInRange, Bool.not_eq_true', Bool.and_eq_false_iff,
        decide_eq_false_iff_not, not_le]
      rcases hq with h1 | h1
      · left; linarith
      · right; linarith
    simp only [validate_input_data, hbad]
    split_ifs <;> rfl
  · intro d q h h1 h2
    have : (process_single_patient d).systolic_bp = clip (d.systolic_bp.getD (.num 120)) 80 220 :=
      rfl
    rw [this, h, Option.getD_some]
    exact clip_num_of_mem h1 h2
  · rfl
  · have : (process_single_patient ⟨some (.num 40), some (.num 10), none, some (.num 210),
        none, none, none, none, none⟩).systolic_bp = clip (.num 210) 80 220 := rfl
    rw [this]
    exact clip_num_of_mem (by norm_num) (by norm_num)

/-- C9 witness: the general parts of the theorem applied at the concrete input
with `systolic_bp = 210`. -/
theorem validator_systolic_narrower_than_clip_witness :
    (validate_input_data ⟨some (.num 40), some (.num 10), none, some (.num 210), none,
        none, none, none, none⟩).1 = false ∧
    (process_single_patient ⟨some (.num 40), some (.num 10), none, some (.num 210), none,
        none, none, none, none⟩).systolic_bp = 210 :=
  ⟨validator_systolic_narrower_than_clip.1
      ⟨some (.num 40), some (.num 10), none, some (.num 210), none, none, none, none, none⟩
      210 rfl (Or.inr (by norm_num)),
    validator_systolic_narrower_than_clip.2.1
      ⟨some (.num 40), some (.num 10), none, some (.num 210), none, none, none, none, none⟩
      210 rfl (by norm_num) (by norm_num)⟩

set_option maxHeartbeats 1600000 in
/-- C10: the validator compares categorical values by exact match only — any
present `smoker`, `sex` or `exercise_level` value other than the listed
lowercase literals makes it return `(false, reason)` — while the processor maps
such values case-insensitively to their intended encodings
(`"Yes" → 1`, `"MALE" → 1`, `"High" → 2`). -/
theorem validator_exact_match_categoricals :
    (∀ (d : RawInput) (v : PyVal), d.smoker = some v → v ≠ .str "yes" → v ≠ .str "no" →
        (validate_input_data d).1 = false) ∧
    (∀ (d : RawInput) (v : PyVal), d.sex = some v → v ≠ .str "male" → v ≠ .str "female" →
        (validate_input_data d).1 = false) ∧
    (∀ (d : RawInput) (v : PyVal), d.exercise_level = some v → v ≠ .str "low" →
        v ≠ .str "medium" → v ≠ .str "high" → (validate_input_data d).1 = false) ∧
    (∀ d : RawInput, d.smoker = some (.str "Yes") → (process_single_patient d).smoker = 1) ∧
    (∀ d : RawInput, d.sex = some (.str "MALE") → (process_single_patient d).sex_male = 1) ∧
    (∀ d : RawInput, d.exercise_level = some (.str "High") →
        (process_single_patient d).exercise_level = 2) := by
  refine ⟨?_, ?_, ?_, ?_, ?_, ?_⟩
  · intro d v h h1 h2
    have hbad : optCatBad d.smoker ["yes", "no"] = true := by
      rw [h]
      rcases v with q | s
      · rfl
      · have e1 : (s == "yes") = false :=
          beq_eq_false_iff_ne.mpr fun e => h1 (by rw [e])
        have e2 : (s == "no") = false :=
          beq_eq_false_iff_ne.mpr fun e => h2 (by rw [e])
        simp [optCatBad, List.contains, List.elem, e1, e2]
    simp only [validate_input_data, hbad]
    split_ifs <;> rfl
  · intro d v h h1 h2
    have hbad : optCatBad d.sex ["male", "female"] = true := by
      rw [h]
      rcases v with q | s
      · rfl
      · have e1 : (s == "male") = false :=
          beq_eq_false_iff_ne.mpr fun e => h1 (by rw [e])
        have e2 : (s == "female") = false :=
          beq_eq_false_iff_ne.mpr fun e => h2 (by rw [e])
        simp [optCatBad, List.contains, List.elem, e1, e2]
    simp only [validate_input_data, hbad]
    split_ifs <;> rfl
  · intro d v h h1 h2 h3
    have hbad : optCatBad d.exercise_level ["low", "medium", "high"] = true := by
      rw [h]
      rcases v with q | s
      · rfl
      · have e1 : (s == "low") = false :=
          beq_eq_false_iff_ne.mpr fun e => h1 (by rw [e])
        have e2 : (s == "medium") = false :=
          beq_eq_false_iff_ne.mpr fun e => h2 (by rw [e])
        have e3 : (s == "high") = false :=
          beq_eq_false_iff_ne.mpr fun e => h3 (by rw [e])
        simp [optCatBad, List.contains, List.elem, e1, e2, e3]
    simp only [validate_input_data, hbad]
    split_ifs <;> rfl
  · intro d h
    have : (process_single_patient d).smoker =
        (smoker_map.lookup (pyLower (pyStr (d.smoker.getD (.str "no"))))).getD 0 := rfl
    rw [this, h]
    decide
  · intro d h
    have : (process_single_patient d).sex_male =
        (sex_map.lookup (pyLower (pyStr (d.sex.getD (.str "male"))))).getD 1 := rfl
    rw [this, h]
    decide
  · intro d h
    have : (process_single_patient d).exercise_level =
        (exercise_map.lookup (pyLower (pyStr (d.exercise_level.getD (.str "medium"))))).getD 1 :=
      rfl
    rw [this, h]
    decide

/-- C10 witness: the theorem applied at a concrete input carrying
`smoker = "Yes"`, which the validator rejects and the processor encodes as 1. -/
theorem validator_exact_match_categoricals_witness :
    (validate_input_data ⟨some (.num 40), some (.num 10), none, none, none, none,
        some (.str "Yes"), none, none⟩).1 = false ∧
    (process_single_patient ⟨some (.num 40), some (.num 10), none, none, none, none,
        some (.str "Yes"), none, none⟩).smoker = 1 :=
  ⟨validator_exact_match_categoricals.1
      ⟨some (.num 40), some (.num 10), none, none, none, none, some (.str "Yes"), none, none⟩
      (.str "Yes") rfl (by decide) (by decide),
    validator_exact_match_categoricals.2.2.2.1
      ⟨some (.num 40), some (.num 10), none, none, none, none, some (.str "Yes"), none, none⟩
      rfl⟩

/-- C6: the processor never fails — for every raw input every canonical field
is present and within its stated bounds; a numeric value whose conversion fails
is replaced by the field's lower bound; and a categorical value whose
lowercased string misses the fixed tables falls back to the documented default
(`smoker → 0`, `sex → 1`, `exercise_level → 1`). -/
theorem process_never_fails_and_bounded :
    (∀ d : RawInput,
      (18 ≤ (process_single_patient d).age ∧ (process_single_patient d).age ≤ 100) ∧
      (0 ≤ (process_single_patient d).alcohol_percentage ∧
        (process_single_patient d).alcohol_percentage ≤ 100) ∧
      (10 ≤ (process_single_patient d).bmi ∧ (process_single_patient d).bmi ≤ 60) ∧
      (80 ≤ (process_single_patient d).systolic_bp ∧
        (process_single_patient d).systolic_bp ≤ 220) ∧
      (100 ≤ (process_single_patient d).cholesterol ∧
        (process_single_patient d).cholesterol ≤ 400) ∧
      (60 ≤ (process_single_patient d).glucose ∧ (process_single_patient d).glucose ≤ 300) ∧
      ((process_single_patient d).smoker = 0 ∨ (process_single_patient d).smoker = 1) ∧
      ((process_single_patient d).sex_male = 0 ∨ (process_single_patient d).sex_male = 1) ∧
      ((process_single_patient d).exercise_level = 0 ∨
        (process_single_patient d).exercise_level = 1 ∨
        (process_single_patient d).exercise_level = 2)) ∧
    (∀ (v : PyVal) (lo hi : ℚ), lo ≤ hi → pyFloat v = none → clip v lo hi = lo) ∧
    (∀ (d : RawInput) (v : PyVal), d.smoker = some v → pyLower (pyStr v) ≠ "no" →
        pyLower (pyStr v) ≠ "yes" → (process_single_patient d).smoker = 0) ∧
    (∀ (d : RawInput) (v : PyVal), d.sex = some v → pyLower (pyStr v) ≠ "female" →
        pyLower (pyStr v) ≠ "male" → (process_single_patient d).sex_male = 1) ∧
    (∀ (d : RawInput) (v : PyVal), d.exercise_level = some v → pyLower (pyStr v) ≠ "low" →
        pyLower (pyStr v) ≠ "medium" → pyLower (pyStr v) ≠ "high" →
        (process_single_patient d).exercise_level = 1) := by
  refine ⟨?_, ?_, ?_, ?_, ?_⟩
  · intro d
    exact ⟨clip_mem _ (by norm_num), clip_mem _ (by norm_num), clip_mem _ (by norm_num),
      clip_mem _ (by norm_num), clip_mem _ (by norm_num), clip_mem _ (by norm_num),
      smoker_code_cases _, sex_code_cases _, exercise_code_cases _⟩
  · intro v lo hi h hn
    unfold clip
    rw [hn, Option.getD_none, min_eq_right h, max_self]
  · intro d v h h1 h2
    have hp : (process_single_patient d).smoker =
        (smoker_map.lookup (pyLower (pyStr (d.smoker.getD (.str "no"))))).getD 0 := rfl
    rw [hp, h, Option.getD_some]
    have e1 : (pyLower (pyStr v) == "no") = false := beq_eq_false_iff_ne.mpr h1
    have e2 : (pyLower (pyStr v) == "yes") = false := beq_eq_false_iff_ne.mpr h2
    simp [smoker_map, List.lookup, e1, e2]
  · intro d v h h1 h2
    have hp : (process_single_patient d).sex_male =
        (sex_map.lookup (pyLower (pyStr (d.sex.getD (.str "male"))))).getD 1 := rfl
    rw [hp, h, Option.getD_some]
    have e1 : (pyLower (pyStr v) == "female") = false := beq_eq_false_iff_ne.mpr h1
    have e2 : (pyLower (pyStr v) == "male") = false := beq_eq_false_iff_ne.mpr h2
    simp [sex_map, List.lookup, e1, e2]
  · intro d v h h1 h2 h3
    have hp : (process_single_patient d).exercise_level =
        (exercise_map.lookup (pyLower (pyStr (d.exercise_level.getD (.str "medium"))))).getD 1 :=
      rfl
    rw [hp, h, Option.getD_some]
    have e1 : (pyLower (pyStr v) == "low") = false := beq_eq_false_iff_ne.mpr h1
    have e2 : (pyLower (pyStr v) == "medium") = false := beq_eq_false_iff_ne.mpr h2
    have e3 : (pyLower (pyStr v) == "high") = false := beq_eq_false_iff_ne.mpr h3
    simp [exercise_map, List.lookup, e1, e2, e3]

/-- C6 witness: the theorem applied at a thoroughly malformed concrete input —
unparseable age, out-of-range alcohol, unknown smoker string — which still
yields in-bounds fields and the documented defaults. -/
theorem process_never_fails_and_bounded_witness :
    (18 ≤ (process_single_patient ⟨some (.str "oops"), some (.num 250), none, none, none,
        none, some (.str "maybe"), none, none⟩).age ∧
      (process_single_patient ⟨some (.str "oops"), some (.num 250), none, none, none,
        none, some (.str "maybe"), none, none⟩).age ≤ 100) ∧
    clip (.str "oops") 18 100 = 18 ∧
    (process_single_patient ⟨some (.str "oops"), some (.num 250), none, none, none,
        none, some (.str "maybe"), none, none⟩).smoker = 0 :=
  ⟨(process_never_fails_and_bounded.1 ⟨some (.str "oops"), some (.num 250), none, none,
      none, none, some (.str "maybe"), none, none⟩).1,
    process_never_fails_and_bounded.2.1 (.str "oops") 18 100 (by norm_num) rfl,
    process_never_fails_and_bounded.2.2.1 ⟨some (.str "oops"), some (.num 250), none, none,
      none, none, some (.str "maybe"), none, none⟩ (.str "maybe") rfl (by decide) (by decide)⟩

/-- C5: for every canonical feature record (fields present and within the
documented bounds) and every genetic profile with dosages in `[0, 1]` and age,
alcohol in their documented ranges, all percentage outputs of both models lie
in `[0, 100]`, `heart_raw_risk` lies in `[0, 1]`, and both confidences lie in
`[0, 1]`. -/
theorem risk_outputs_bounded :
    (∀ f : FeatureMap, canonicalOKF f = true →
      (0 ≤ (predict_diseases f).heart_disease_risk ∧
        (predict_diseases f).heart_disease_risk ≤ 100) ∧
      (0 ≤ (predict_diseases f).heart_raw_risk ∧ (predict_diseases f).heart_raw_risk ≤ 1) ∧
      (0 ≤ (predict_diseases f).stroke_risk ∧ (predict_diseases f).stroke_risk ≤ 100) ∧
      (0 ≤ (predict_diseases f).alcohol_impact_score ∧
        (predict_diseases f).alcohol_impact_score ≤ 100) ∧
      (0 ≤ (get_confidence_scores f).heart_confidence ∧
        (get_confidence_scores f).heart_confidence ≤ 1) ∧
      (0 ≤ (get_confidence_scores f).stroke_confidence ∧
        (get_confidence_scores f).stroke_confidence ≤ 1)) ∧
    (∀ (d : DnaData) (age alcohol : ℚ), dnaOK d = true → 18 ≤ age → age ≤ 100 →
      0 ≤ alcohol → alcohol ≤ 100 →
      (0 ≤ (dna_predict d age alcohol).alcoholism_risk ∧
        (dna_predict d age alcohol).alcoholism_risk ≤ 100) ∧
      (0 ≤ (dna_predict d age alcohol).liver_damage_risk ∧
        (dna_predict d age alcohol).liver_damage_risk ≤ 100) ∧
      (0 ≤ (dna_predict d age alcohol).neurological_impact ∧
        (dna_predict d age alcohol).neurological_impact ≤ 100) ∧
      (0 ≤ (dna_predict d age alcohol).dna_heart_risk ∧
        (dna_predict d age alcohol).dna_heart_risk ≤ 100) ∧
      (0 ≤ (dna_predict d age alcohol).dna_liver_risk ∧
        (dna_predict d age alcohol).dna_liver_risk ≤ 100)) := by
  constructor
  · intro f hf
    simp only [canonicalOKF, Bool.and_eq_true] at hf
    obtain ⟨⟨⟨⟨⟨⟨⟨⟨_, h2⟩, _⟩, _⟩, _⟩, _⟩, _⟩, _⟩, _⟩ := hf
    have ha := inRangeQ_getD h2 0
    have haR : (0 : ℝ) ≤ ((f.alcohol_percentage.getD 0 : ℚ) : ℝ) := by exact_mod_cast ha.1
    have haR' : ((f.alcohol_percentage.getD 0 : ℚ) : ℝ) ≤ 100 := by exact_mod_cast ha.2
    have hs1 := sigmoid_pos ((linear_score f heart_weights : ℚ) : ℝ)
    have hs1' := sigmoid_lt_one ((linear_score f heart_weights : ℚ) : ℝ)
    have hs2 := sigmoid_pos ((linear_score f stroke_weights : ℚ) : ℝ)
    have hs2' := sigmoid_lt_one ((linear_score f stroke_weights : ℚ) : ℝ)
    refine ⟨⟨?_, ?_⟩, ⟨?_, ?_⟩, ⟨?_, ?_⟩, ⟨?_, ?_⟩, ?_⟩
    · exact pyRound_nonneg 2 (le_max_left _ _)
    · have hle : max 0 (min 100 (0.9 * (sigmoid ((linear_score f heart_weights : ℚ) : ℝ)
          * 100) + 2.0)) ≤ (((100 : ℤ) : ℝ)) := by
        push_cast
        exact max_le (by norm_num) (min_le_left _ _)
      have := pyRound_le_int 2 hle
      exact_mod_cast this
    · exact pyRound_nonneg 4 hs1.le
    · have hle : sigmoid ((linear_score f heart_weights : ℚ) : ℝ) ≤ (((1 : ℤ) : ℝ)) := by
        push_cast
        exact hs1'.le
      have := pyRound_le_int 4 hle
      exact_mod_cast this
    · exact pyRound_nonneg 2 (by nlinarith)
    · have hle : sigmoid ((linear_score f stroke_weights : ℚ) : ℝ) * 100 ≤
          (((100 : ℤ) : ℝ)) := by
        push_cast
        nlinarith
      have := pyRound_le_int 2 hle
      exact_mod_cast this
    · exact pyRound_nonneg 2 (by nlinarith)
    · have hle : 0.4 * ((f.alcohol_percentage.getD 0 : ℚ) : ℝ) +
          0.1 * (sigmoid ((linear_score f heart_weights : ℚ) : ℝ) * 100 +
            sigmoid ((linear_score f stroke_weights : ℚ) : ℝ) * 100) / 2 ≤
          (((100 : ℤ) : ℝ)) := by
        push_cast
        nlinarith
      have := pyRound_le_int 2 hle
      exact_mod_cast this
    · have hn : confidence_keys.foldl (fun c k => if hasKey f k then c + 1 else c) 0 ≤ 9 := by
        rw [foldl_count_eq_countP]
        have hcp : List.countP (fun k => hasKey f k) confidence_keys ≤
            confidence_keys.length := List.countP_le_length _
        simpa using hcp
      have hnQ : ((confidence_keys.foldl (fun c k => if hasKey f k then c + 1 else c) 0 : ℕ)
          : ℚ) ≤ 9 := by exact_mod_cast hn
      have hnQ0 : (0 : ℚ) ≤ ((confidence_keys.foldl
          (fun c k => if hasKey f k then c + 1 else c) 0 : ℕ) : ℚ) := Nat.cast_nonneg _
      have hsig : (0.5 : ℚ) ≤ (if (18 ≤ f.age.getD 40 ∧ f.age.getD 40 ≤ 85) ∧
            (0 ≤ f.alcohol_percentage.getD 10 ∧ f.alcohol_percentage.getD 10 ≤ 40) ∧
            (90 ≤ f.systolic_bp.getD 120 ∧ f.systolic_bp.getD 120 ≤ 160)
          then (0.7 : ℚ) else 0.5) ∧
          (if (18 ≤ f.age.getD 40 ∧ f.age.getD 40 ≤ 85) ∧
            (0 ≤ f.alcohol_percentage.getD 10 ∧ f.alcohol_percentage.getD 10 ≤ 40) ∧
            (90 ≤ f.systolic_bp.getD 120 ∧ f.systolic_bp.getD 120 ≤ 160)
          then (0.7 : ℚ) else 0.5) ≤ 0.7 := by
        split <;> norm_num
      refine ⟨⟨?_, ?_⟩, ?_, ?_⟩
      · exact pyRound_nonneg 3 (by nlinarith [hsig.1])
      · have hle : 0.6 * (((confidence_keys.foldl
            (fun c k => if hasKey f k then c + 1 else c) 0 : ℕ) : ℚ) / 9) +
            0.4 * (if (18 ≤ f.age.getD 40 ∧ f.age.getD 40 ≤ 85) ∧
              (0 ≤ f.alcohol_percentage.getD 10 ∧ f.alcohol_percentage.getD 10 ≤ 40) ∧
              (90 ≤ f.systolic_bp.getD 120 ∧ f.systolic_bp.getD 120 ≤ 160)
            then (0.7 : ℚ) else 0.5) ≤ (((1 : ℤ) : ℚ)) := by
          push_cast
          nlinarith [hsig.2]
        have := pyRound_le_int 3 hle
        exact_mod_cast this
      · exact pyRound_nonneg 3 (by nlinarith [hsig.1])
      · have hle : (0.6 * (((confidence_keys.foldl
            (fun c k => if hasKey f k then c + 1 else c) 0 : ℕ) : ℚ) / 9) +
            0.4 * (if (18 ≤ f.age.getD 40 ∧ f.age.getD 40 ≤ 85) ∧
              (0 ≤ f.alcohol_percentage.getD 10 ∧ f.alcohol_percentage.getD 10 ≤ 40) ∧
              (90 ≤ f.systolic_bp.getD 120 ∧ f.systolic_bp.getD 120 ≤ 160)
            then (0.7 : ℚ) else 0.5)) * 0.95 ≤ (((1 : ℤ) : ℚ)) := by
          push_cast
          nlinarith [hsig.2]
        have := pyRound_le_int 3 hle
        exact_mod_cast this
  · intro d age alcohol _ _ _ _ _
    exact ⟨clamp_mem_0_100 _, clamp_mem_0_100 _, clamp_mem_0_100 _, clamp_mem_0_100 _,
      clamp_mem_0_100 _⟩

/-- C5 witness: the theorem applied at a concrete canonical record and a
concrete neutral genetic profile. -/
theorem risk_outputs_bounded_witness :
    0 ≤ (predict_diseases ⟨some 40, some 10, some 25, some 120, some 200, some 95,
        some 0, some 1, some 1⟩).heart_disease_risk ∧
    0 ≤ (dna_predict ⟨some 0.5, some 0.5, some 0.5, some 0.5, some 0.5, some 0.5,
        some 0.5, some 0.5⟩ 40 10).alcoholism_risk :=
  ⟨((risk_outputs_bounded.1 ⟨some 40, some 10, some 25, some 120, some 200, some 95,
      some 0, some 1, some 1⟩ (by norm_num [canonicalOKF, inRangeQ])).1).1,
    ((risk_outputs_bounded.2 ⟨some 0.5, some 0.5, some 0.5, some 0.5, some 0.5, some 0.5,
      some 0.5, some 0.5⟩ 40 10 (by norm_num [dnaOK, inRangeQ]) (by norm_num) (by norm_num)
      (by norm_num) (by norm_num)).1).1⟩

/-- C7: holding the other clinical features fixed, the alcohol impact score is
non-decreasing in `alcohol_percentage` over `[0, 100]`. -/
theorem alcohol_impact_monotone (f : FeatureMap) (a1 a2 : ℚ)
    (h0 : 0 ≤ a1) (h12 : a1 ≤ a2) (h100 : a2 ≤ 100) :
    (predict_diseases { f with alcohol_percentage := some a1 }).alcohol_impact_score ≤
      (predict_diseases { f with alcohol_percentage := some a2 }).alcohol_impact_score := by
  have hh : linear_score { f with alcohol_percentage := some a1 } heart_weights ≤
      linear_score { f with alcohol_percentage := some a2 } heart_weights := by
    simp only [linear_score, heart_weights, featureGet]
    simp
    linarith
  have hs : linear_score { f with alcohol_percentage := some a1 } stroke_weights ≤
      linear_score { f with alcohol_percentage := some a2 } stroke_weights := by
    simp only [linear_score, stroke_weights, featureGet]
    simp
    linarith
  have hh' : sigmoid ((linear_score { f with alcohol_percentage := some a1 } heart_weights
      : ℚ) : ℝ) ≤
      sigmoid ((linear_score { f with alcohol_percentage := some a2 } heart_weights : ℚ)
      : ℝ) :=
    sigmoid_le_sigmoid (by exact_mod_cast hh)
  have hs' : sigmoid ((linear_score { f with alcohol_percentage := some a1 } stroke_weights
      : ℚ) : ℝ) ≤
      sigmoid ((linear_score { f with alcohol_percentage := some a2 } stroke_weights : ℚ)
      : ℝ) :=
    sigmoid_le_sigmoid (by exact_mod_cast hs)
  have e1 : (predict_diseases { f with alcohol_percentage := some a1 }).alcohol_impact_score =
      pyRound (0.4 * ((a1 : ℚ) : ℝ) +
        0.1 * (sigmoid ((linear_score { f with alcohol_percentage := some a1 } heart_weights
            : ℚ) : ℝ) * 100 +
          sigmoid ((linear_score { f with alcohol_percentage := some a1 } stroke_weights
            : ℚ) : ℝ) * 100) / 2) 2 := rfl
  have e2 : (predict_diseases { f with alcohol_percentage := some a2 }).alcohol_impact_score =
      pyRound (0.4 * ((a2 : ℚ) : ℝ) +
        0.1 * (sigmoid ((linear_score { f with alcohol_percentage := some a2 } heart_weights
            : ℚ) : ℝ) * 100 +
          sigmoid ((linear_score { f with alcohol_percentage := some a2 } stroke_weights
            : ℚ) : ℝ) * 100) / 2) 2 := rfl
  rw [e1, e2]
  apply pyRound_mono
  have hc : ((a1 : ℚ) : ℝ) ≤ ((a2 : ℚ) : ℝ) := by exact_mod_cast h12
  linarith

/-- C7 witness: the monotonicity theorem applied at a concrete record with
alcohol 0 against alcohol 50. -/
theorem alcohol_impact_monotone_witness :
    (predict_diseases { (⟨some 40, some 0, some 25, some 120, some 200, some 95, some 0,
        some 1, some 1⟩ : FeatureMap) with alcohol_percentage := some 0 }).alcohol_impact_score ≤
      (predict_diseases { (⟨some 40, some 0, some 25, some 120, some 200, some 95, some 0,
        some 1, some 1⟩ : FeatureMap) with
          alcohol_percentage := some 50 }).alcohol_impact_score :=
  alcohol_impact_monotone
    ⟨some 40, some 0, some 25, some 120, some 200, some 95, some 0, some 1, some 1⟩
    0 50 (by norm_num) (by norm_num) (by norm_num)

/-- Taylor bracketing of `exp (-3/4)` used by the literal clinical scenario. -/
theorem exp_neg34_bounds :
    (0.47230 : ℝ) ≤ Real.exp (-(3/4 : ℝ)) ∧ Real.exp (-(3/4 : ℝ)) ≤ 0.47242 := by
  have h := @Real.exp_bound (-(3/4) : ℝ) (by rw [abs_le]; constructor <;> norm_num) 8
    (by norm_num)
  have ha : |(-(3/4) : ℝ)| = 3/4 := by
    rw [abs_neg]
    exact abs_of_nonneg (by norm_num)
  rw [ha, abs_le] at h
  obtain ⟨h1, h2⟩ := h
  norm_num [Finset.sum_range_succ, Nat.factorial] at h1 h2
  constructor <;> linarith

/-- Taylor bracketing of `exp (-1/40)` used by the literal clinical scenario. -/
theorem exp_neg140_bounds :
    (0.97530 : ℝ) ≤ Real.exp (-(1/40 : ℝ)) ∧ Real.exp (-(1/40 : ℝ)) ≤ 0.97532 := by
  have h := @Real.exp_bound (-(1/40) : ℝ) (by rw [abs_le]; constructor <;> norm_num) 4
    (by norm_num)
  have ha : |(-(1/40) : ℝ)| = 1/40 := by
    rw [abs_neg]
    exact abs_of_nonneg (by norm_num)
  rw [ha, abs_le] at h
  obtain ⟨h1, h2⟩ := h
  norm_num [Finset.sum_range_succ, Nat.factorial] at h1 h2
  constructor <;> linarith

/-- Rational bracketing of the heart sigmoid at linear score `3/4`. -/
theorem sig34_bounds :
    (100000/147242 : ℝ) ≤ sigmoid ((3/4 : ℚ) : ℝ) ∧
      sigmoid ((3/4 : ℚ) : ℝ) ≤ 100000/147230 := by
  have hq : ((3/4 : ℚ) : ℝ) = (3/4 : ℝ) := by norm_num
  rw [hq]
  have hb := sigmoid_bounds (by norm_num : (0:ℝ) ≤ 0.47230)
    exp_neg34_bounds.1 exp_neg34_bounds.2
  constructor
  · calc (100000/147242 : ℝ) = 1/(1 + 0.47242) := by norm_num
      _ ≤ _ := hb.1
  · calc sigmoid (3/4 : ℝ) ≤ 1/(1 + 0.47230) := hb.2
      _ = 100000/147230 := by norm_num

/-- Rational bracketing of the stroke sigmoid at linear score `1/40`. -/
theorem sig140_bounds :
    (100000/197532 : ℝ) ≤ sigmoid ((1/40 : ℚ) : ℝ) ∧
      sigmoid ((1/40 : ℚ) : ℝ) ≤ 100000/197530 := by
  have hq : ((1/40 : ℚ) : ℝ) = (1/40 : ℝ) := by norm_num
  rw [hq]
  have hb := sigmoid_bounds (by norm_num : (0:ℝ) ≤ 0.97530)
    exp_neg140_bounds.1 exp_neg140_bounds.2
  constructor
  · calc (100000/197532 : ℝ) = 1/(1 + 0.97532) := by norm_num
      _ ≤ _ := hb.1
  · calc sigmoid (1/40 : ℝ) ≤ 1/(1 + 0.97530) := hb.2
      _ = 100000/197530 := by norm_num

set_option maxHeartbeats 1000000 in
/-- C1: for the feature set age 40, alcohol 10, bmi 25, systolic 120,
cholesterol 200, smoker 0, sex_male 1, exercise 1, the clinical model returns
`heart_disease_risk` within 0.02 of 63.13, `stroke_risk` within 0.02 of the
range 50.62 to 50.63, and `alcohol_impact_score` within 0.02 of 9.93. -/
theorem clinical_literal_scenario_one :
    |(predict_diseases ⟨some 40, some 10, some 25, some 120, some 200, none, some 0,
        some 1, some 1⟩).heart_disease_risk - 63.13| ≤ 0.02 ∧
    (50.62 - 0.02 : ℝ) ≤ (predict_diseases ⟨some 40, some 10, some 25, some 120, some 200,
        none, some 0, some 1, some 1⟩).stroke_risk ∧
    (predict_diseases ⟨some 40, some 10, some 25, some 120, some 200, none, some 0,
        some 1, some 1⟩).stroke_risk ≤ 50.63 + 0.02 ∧
    |(predict_diseases ⟨some 40, some 10, some 25, some 120, some 200, none, some 0,
        some 1, some 1⟩).alcohol_impact_score - 9.93| ≤ 0.02 := by
  have hh : linear_score ⟨some 40, some 10, some 25, some 120, some 200, none, some 0,
      some 1, some 1⟩ heart_weights = 3/4 := by
    simp [linear_score, heart_weights, featureGet]
    norm_num
  have hs : linear_score ⟨some 40, some 10, some 25, some 120, some 200, none, some 0,
      some 1, some 1⟩ stroke_weights = 1/40 := by
    simp [linear_score, stroke_weights, featureGet]
    norm_num
  have e1 : (predict_diseases ⟨some 40, some 10, some 25, some 120, some 200, none, some 0,
      some 1, some 1⟩).heart_disease_risk =
      pyRound (max 0 (min 100 (0.9 * (sigmoid ((linear_score ⟨some 40, some 10, some 25,
        some 120, some 200, none, some 0, some 1, some 1⟩ heart_weights : ℚ) : ℝ) * 100)
        + 2.0))) 2 := rfl
  have e3 : (predict_diseases ⟨some 40, some 10, some 25, some 120, some 200, none, some 0,
      some 1, some 1⟩).stroke_risk =
      pyRound (sigmoid ((linear_score ⟨some 40, some 10, some 25, some 120, some 200, none,
        some 0, some 1, some 1⟩ stroke_weights : ℚ) : ℝ) * 100) 2 := rfl
  have e4 : (predict_diseases ⟨some 40, some 10, some 25, some 120, some 200, none, some 0,
      some 1, some 1⟩).alcohol_impact_score =
      pyRound (0.4 * ((10 : ℚ) : ℝ) + 0.1 * (sigmoid ((linear_score ⟨some 40, some 10,
        some 25, some 120, some 200, none, some 0, some 1, some 1⟩ heart_weights : ℚ) : ℝ)
        * 100 + sigmoid ((linear_score ⟨some 40, some 10, some 25, some 120, some 200, none,
        some 0, some 1, some 1⟩ stroke_weights : ℚ) : ℝ) * 100) / 2) 2 := rfl
  rw [e1, e3, e4, hh, hs]
  have h1 := sig34_bounds
  have h2 := sig140_bounds
  have hymin : min 100 (0.9 * (sigmoid ((3/4 : ℚ) : ℝ) * 100) + 2.0) =
      0.9 * (sigmoid ((3/4 : ℚ) : ℝ) * 100) + 2.0 := by
    apply min_eq_right
    nlinarith [h1.2]
  have hymax : max 0 (0.9 * (sigmoid ((3/4 : ℚ) : ℝ) * 100) + 2.0) =
      0.9 * (sigmoid ((3/4 : ℚ) : ℝ) * 100) + 2.0 := by
    apply max_eq_right
    nlinarith [h1.1]
  rw [hymin, hymax]
  have hr1 := @pyRound_range ℝ _ _ (0.9 * (sigmoid ((3/4 : ℚ) : ℝ) * 100) + 2.0) 2 6312 6313
    (by push_cast; nlinarith [h1.1]) (by push_cast; nlinarith [h1.2])
  have hr3 := @pyRound_range ℝ _ _ (sigmoid ((1/40 : ℚ) : ℝ) * 100) 2 5062 5063
    (by push_cast; nlinarith [h2.1]) (by push_cast; nlinarith [h2.2])
  have hr4 := @pyRound_range ℝ _ _ (0.4 * ((10 : ℚ) : ℝ) + 0.1 * (sigmoid ((3/4 : ℚ) : ℝ)
      * 100 + sigmoid ((1/40 : ℚ) : ℝ) * 100) / 2) 2 993 993
    (by push_cast; nlinarith [h1.1, h2.1]) (by push_cast; nlinarith [h1.2, h2.2])
  push_cast at hr1 hr3 hr4
  refine ⟨?_, ?_, ?_, ?_⟩
  · rw [abs_le]
    constructor <;> linarith [hr1.1, hr1.2]
  · linarith [hr3.1]
  · linarith [hr3.2]
  · rw [abs_le]
    constructor <;> linarith [hr4.1, hr4.2]

end GeneAlcPredict
